import Mathlib

/-!
Verification development for the windows-snapshot networking module
(`src/operating_system/networking.rs`).

The repository declares two record schemas (`Win32_IP4RouteTable`,
`Win32_IP4PersistedRouteTable`) and two snapshot containers
(`IP4RouteTables`, `IP4PersistedRouteTables`), each refreshed through the
crate's `update!` macro over a WMI session.  The record and container
shapes below are translated field-for-field from the source file; the
behaviour of the connection provider, typed query executor and the
`update!`-generated refresh is not part of the networking source file and
is modelled from the specification where stated.
-/

/-- Wall-clock timestamp (`std::time::SystemTime`), modelled as an abstract
tick count. -/
abbrev SystemTime := Nat

/-- Opaque WMI date-time value (`wmi::WMIDateTime`), carrying its textual
representation. -/
structure WMIDateTime where
  raw : String
deriving DecidableEq

/-- Field-for-field embedding of `Win32_IP4PersistedRouteTable`
(src/operating_system/networking.rs lines 56-97): every field is optional. -/
structure Win32_IP4PersistedRouteTable where
  Caption : Option String
  Description : Option String
  Destination : Option String
  InstallDate : Option WMIDateTime
  Mask : Option String
  Metric1 : Option Int
  Name : Option String
  NextHop : Option String
  Status : Option String
deriving DecidableEq

/-- Field-for-field embedding of `Win32_IP4RouteTable`
(src/operating_system/networking.rs lines 108-207): every field is optional.
The Rust field `Type` is written `«Type»` because `Type` is reserved in
Lean; `i32` fields are modelled as `Int`, `u32` fields as `Nat`. -/
structure Win32_IP4RouteTable where
  Age : Option Int
  Caption : Option String
  Description : Option String
  Destination : Option String
  Information : Option String
  InstallDate : Option WMIDateTime
  InterfaceIndex : Option Int
  Mask : Option String
  Metric1 : Option Int
  Metric2 : Option Int
  Metric3 : Option Int
  Metric4 : Option Int
  Metric5 : Option Int
  Name : Option String
  NextHop : Option String
  Protocol : Option Nat
  Status : Option String
  «Type» : Option Nat
deriving DecidableEq

/-- Snapshot container `IP4PersistedRouteTables`
(src/operating_system/networking.rs lines 22-28): a sequence of records
plus the last-updated timestamp. -/
structure IP4PersistedRouteTables where
  ip4_persisted_route_tables : List Win32_IP4PersistedRouteTable
  last_updated : SystemTime
deriving DecidableEq

/-- Snapshot container `IP4RouteTables`
(src/operating_system/networking.rs lines 33-39): a sequence of records
plus the last-updated timestamp. -/
structure IP4RouteTables where
  ip4_route_tables : List Win32_IP4RouteTable
  last_updated : SystemTime
deriving DecidableEq

/-- Modelled from the spec: a dynamically-typed attribute value returned by
the management service (string, integer, boolean, date-time, or null);
the wmi crate's row values are not part of this repository's src. -/
inductive WMIValue where
  | vNull
  | vBool (b : Bool)
  | vInt (n : Int)
  | vStr (s : String)
  | vDateTime (d : WMIDateTime)
deriving DecidableEq

/-- A result row: a mapping from attribute name to dynamic value. -/
abbrev Row := List (String × WMIValue)

/-- Modelled from the spec: the management service, mapping a class name to
its result rows, or `none` when it cannot resolve the class. -/
abbrev Service := String → Option (List Row)

/-- Deserialization of a single row can only fail with a type mismatch. -/
inductive DeserError where
  | typeMismatch
deriving DecidableEq

/-- Modelled from the spec: query-level error taxonomy
(`QueryError::ServiceRejected`, `QueryError::TypeMismatch`). -/
inductive QueryError where
  | serviceRejected
  | typeMismatch
deriving DecidableEq

/-- Modelled from the spec: connection-establishment failure
(`ConnectionError`). -/
inductive ConnectionError where
  | initFailure
deriving DecidableEq

/-- Parse a nonempty digit string into a number; any non-digit character
fails. -/
def parseNatAux : List Char → Nat → Option Nat
  | [], acc => some acc
  | c :: cs, acc =>
    if c.isDigit then parseNatAux cs (acc * 10 + (c.toNat - 48)) else none

/-- Parse a list of characters as an unsigned decimal numeral. -/
def parseNatChars : List Char → Option Nat
  | [] => none
  | cs => parseNatAux cs 0

/-- Parse decimal text, with an optional leading minus sign, as an integer. -/
def parseIntStr (s : String) : Option Int :=
  match s.toList with
  | [] => none
  | List.cons (Char.ofNat 45) cs => (parseNatChars cs).map (fun n => -(n : Int))
  | cs => (parseNatChars cs).map (fun n => (n : Int))

/-- Modelled from the spec: coercion of a dynamic value into an optional
`i32` field: null resolves to absent, a present integer in `i32` range is
taken, numeric text is parsed, anything else is a type mismatch. -/
def coerceI32 : WMIValue → Except DeserError (Option Int)
  | .vNull => .ok none
  | .vInt n =>
    if -2147483648 ≤ n ∧ n < 2147483648 then .ok (some n)
    else .error .typeMismatch
  | .vStr s =>
    match parseIntStr s with
    | some n =>
      if -2147483648 ≤ n ∧ n < 2147483648 then .ok (some n)
      else .error .typeMismatch
    | none => .error .typeMismatch
  | _ => .error .typeMismatch

/-- Modelled from the spec: coercion of a dynamic value into an optional
`u32` field. -/
def coerceU32 : WMIValue → Except DeserError (Option Nat)
  | .vNull => .ok none
  | .vInt n =>
    if 0 ≤ n ∧ n < 4294967296 then .ok (some n.toNat)
    else .error .typeMismatch
  | .vStr s =>
    match parseNatChars s.toList with
    | some n => if n < 4294967296 then .ok (some n) else .error .typeMismatch
    | none => .error .typeMismatch
  | _ => .error .typeMismatch

/-- Modelled from the spec: coercion of a dynamic value into an optional
string field. -/
def coerceStr : WMIValue → Except DeserError (Option String)
  | .vNull => .ok none
  | .vStr s => .ok (some s)
  | _ => .error .typeMismatch

/-- Modelled from the spec: coercion of a dynamic value into an optional
date-time field. -/
def coerceDT : WMIValue → Except DeserError (Option WMIDateTime)
  | .vNull => .ok none
  | .vDateTime d => .ok (some d)
  | _ => .error .typeMismatch

/-- Modelled from the spec: read one declared field from a row by attribute
name; an absent attribute resolves to the absent optional value, a present
one goes through the field's coercion. -/
def readField (coe : WMIValue → Except DeserError (Option α)) (row : Row)
    (name : String) : Except DeserError (Option α) :=
  match List.lookup name row with
  | none => .ok none
  | some v => coe v

def readI32 : Row → String → Except DeserError (Option Int) :=
  readField coerceI32

def readU32 : Row → String → Except DeserError (Option Nat) :=
  readField coerceU32

def readStr : Row → String → Except DeserError (Option String) :=
  readField coerceStr

def readDT : Row → String → Except DeserError (Option WMIDateTime) :=
  readField coerceDT

/-- The attribute names declared on `Win32_IP4RouteTable`. -/
def ip4RouteTableAttrNames : List String :=
  ["Age", "Caption", "Description", "Destination", "Information",
   "InstallDate", "InterfaceIndex", "Mask", "Metric1", "Metric2",
   "Metric3", "Metric4", "Metric5", "Name", "NextHop", "Protocol",
   "Status", "Type"]

/-- The attribute names declared on `Win32_IP4PersistedRouteTable`. -/
def ip4PersistedAttrNames : List String :=
  ["Caption", "Description", "Destination", "InstallDate", "Mask",
   "Metric1", "Name", "NextHop", "Status"]

/-- Modelled from the spec: field-by-name deserialization of one row into a
`Win32_IP4RouteTable`; attributes not declared on the record are never
consulted. -/
def deserIP4RouteTable (row : Row) : Except DeserError Win32_IP4RouteTable := do
  let vAge ← readI32 row "Age"
  let vCaption ← readStr row "Caption"
  let vDescription ← readStr row "Description"
  let vDestination ← readStr row "Destination"
  let vInformation ← readStr row "Information"
  let vInstallDate ← readDT row "InstallDate"
  let vInterfaceIndex ← readI32 row "InterfaceIndex"
  let vMask ← readStr row "Mask"
  let vMetric1 ← readI32 row "Metric1"
  let vMetric2 ← readI32 row "Metric2"
  let vMetric3 ← readI32 row "Metric3"
  let vMetric4 ← readI32 row "Metric4"
  let vMetric5 ← readI32 row "Metric5"
  let vName ← readStr row "Name"
  let vNextHop ← readStr row "NextHop"
  let vProtocol ← readU32 row "Protocol"
  let vStatus ← readStr row "Status"
  let vType ← readU32 row "Type"
  pure { Age := vAge, Caption := vCaption, Description := vDescription,
         Destination := vDestination, Information := vInformation,
         InstallDate := vInstallDate, InterfaceIndex := vInterfaceIndex,
         Mask := vMask, Metric1 := vMetric1, Metric2 := vMetric2,
         Metric3 := vMetric3, Metric4 := vMetric4, Metric5 := vMetric5,
         Name := vName, NextHop := vNextHop, Protocol := vProtocol,
         Status := vStatus, «Type» := vType }

/-- Modelled from the spec: field-by-name deserialization of one row into a
`Win32_IP4PersistedRouteTable`. -/
def deserIP4Persisted (row : Row) :
    Except DeserError Win32_IP4PersistedRouteTable := do
  let vCaption ← readStr row "Caption"
  let vDescription ← readStr row "Description"
  let vDestination ← readStr row "Destination"
  let vInstallDate ← readDT row "InstallDate"
  let vMask ← readStr row "Mask"
  let vMetric1 ← readI32 row "Metric1"
  let vName ← readStr row "Name"
  let vNextHop ← readStr row "NextHop"
  let vStatus ← readStr row "Status"
  pure { Caption := vCaption, Description := vDescription,
         Destination := vDestination, InstallDate := vInstallDate,
         Mask := vMask, Metric1 := vMetric1, Name := vName,
         NextHop := vNextHop, Status := vStatus }

/-- Modelled from the spec: deserialize every row in order, aborting the
whole query on the first row failure (default abort policy, no partial
record list). -/
def rowsMapM (f : Row → Except DeserError α) :
    List Row → Except DeserError (List α)
  | [] => .ok []
  | r :: rs =>
    match f r with
    | .error e => .error e
    | .ok x =>
      match rowsMapM f rs with
      | .error e => .error e
      | .ok xs => .ok (x :: xs)

/-- Modelled from the spec: the typed query executor. A class name the
service cannot resolve is `ServiceRejected`; otherwise every row is
deserialized and any row-level mismatch aborts the query with
`TypeMismatch`. -/
def wmiQuery (svc : Service) (className : String)
    (deser : Row → Except DeserError α) : Except QueryError (List α) :=
  match svc className with
  | none => .error .serviceRejected
  | some rows =>
    match rowsMapM deser rows with
    | .error _ => .error .typeMismatch
    | .ok xs => .ok xs

/-- The query descriptor bound by `update!(IP4RouteTables, ip4_route_tables)`. -/
def queryIP4RouteTable (svc : Service) :
    Except QueryError (List Win32_IP4RouteTable) :=
  wmiQuery svc "Win32_IP4RouteTable" deserIP4RouteTable

/-- The query descriptor bound by
`update!(IP4PersistedRouteTables, ip4_persisted_route_tables)`. -/
def queryIP4Persisted (svc : Service) :
    Except QueryError (List Win32_IP4PersistedRouteTable) :=
  wmiQuery svc "Win32_IP4PersistedRouteTable" deserIP4Persisted

/-- Modelled from the spec: replace-on-success refresh application. A
successful query replaces the sequence and the timestamp together; a
failure returns the previous container untouched alongside the error. -/
def applyRefreshIP4RouteTables (prev : IP4RouteTables)
    (outcome : Except QueryError (List Win32_IP4RouteTable))
    (now : SystemTime) : IP4RouteTables × Except QueryError Unit :=
  match outcome with
  | .ok rs => ({ ip4_route_tables := rs, last_updated := now }, .ok ())
  | .error e => (prev, .error e)

/-- Modelled from the spec: replace-on-success refresh application for the
persisted-route container. -/
def applyRefreshIP4Persisted (prev : IP4PersistedRouteTables)
    (outcome : Except QueryError (List Win32_IP4PersistedRouteTable))
    (now : SystemTime) : IP4PersistedRouteTables × Except QueryError Unit :=
  match outcome with
  | .ok rs => ({ ip4_persisted_route_tables := rs, last_updated := now }, .ok ())
  | .error e => (prev, .error e)

/-- Modelled from the spec: the `update!`-generated refresh for
`IP4RouteTables` — run the bound query, then apply replace-on-success. -/
def IP4RouteTables.refresh (prev : IP4RouteTables) (svc : Service)
    (now : SystemTime) : IP4RouteTables × Except QueryError Unit :=
  applyRefreshIP4RouteTables prev (queryIP4RouteTable svc) now

/-- Modelled from the spec: the `update!`-generated refresh for
`IP4PersistedRouteTables`. -/
def IP4PersistedRouteTables.refresh (prev : IP4PersistedRouteTables)
    (svc : Service) (now : SystemTime) :
    IP4PersistedRouteTables × Except QueryError Unit :=
  applyRefreshIP4Persisted prev (queryIP4Persisted svc) now

/-- Modelled from the spec: a live session to the management-service
namespace, returned by the connection provider. -/
structure Session where
  live : Bool
deriving DecidableEq

/-- Modelled from the spec: the process-level host-library initialization
state managed by the connection provider (`COMLibrary`). -/
structure ComContext where
  comInitDone : Bool
deriving DecidableEq

/-- Modelled from the spec: `open()` performs the one-time host-library
init when it has not happened yet, and on an already-initialized context
succeeds without touching the state; either way it returns a live session. -/
def comOpen (ctx : ComContext) : ComContext × Except ConnectionError Session :=
  if ctx.comInitDone then (ctx, .ok { live := true })
  else ({ comInitDone := true }, .ok { live := true })

/-- Modelled from the spec: the snapshot-container state machine — `Empty`
(initial: no records, no meaningful timestamp) or `Populated` with the last
successfully fetched sequence and its capture time. -/
inductive ContState where
  | empty
  | populated (recs : List Win32_IP4RouteTable) (t : SystemTime)
deriving DecidableEq

/-- The timestamp observable on a container state: defined only when
populated. -/
def ContState.lastUpdated : ContState → Option SystemTime
  | .empty => none
  | .populated _ t => some t

def ContState.isPopulated : ContState → Bool
  | .empty => false
  | .populated _ _ => true

/-- One refresh attempt: the query outcome together with the attempt's
wall-clock completion time. -/
abbrev RefreshEvent := Except QueryError (List Win32_IP4RouteTable) × SystemTime

/-- Modelled from the spec: a successful refresh replaces records and
timestamp together; a failed refresh is a self-loop. -/
def contStep (s : ContState) (ev : RefreshEvent) : ContState :=
  match ev.1 with
  | .ok rs => .populated rs ev.2
  | .error _ => s

/-- The container state reached from `Empty` after a sequence of refresh
attempts. -/
def runTrace (evs : List RefreshEvent) : ContState :=
  evs.foldl contStep .empty

/-- The `derive Default` record for `Win32_IP4RouteTable`: every field takes
`Option::default`, i.e. the absent value. -/
def Win32_IP4RouteTable.mkDefault : Win32_IP4RouteTable :=
  { Age := none, Caption := none, Description := none, Destination := none,
    Information := none, InstallDate := none, InterfaceIndex := none,
    Mask := none, Metric1 := none, Metric2 := none, Metric3 := none,
    Metric4 := none, Metric5 := none, Name := none, NextHop := none,
    Protocol := none, Status := none, «Type» := none }

/-- The `derive Default` record for `Win32_IP4PersistedRouteTable`. -/
def Win32_IP4PersistedRouteTable.mkDefault : Win32_IP4PersistedRouteTable :=
  { Caption := none, Description := none, Destination := none,
    InstallDate := none, Mask := none, Metric1 := none, Name := none,
    NextHop := none, Status := none }

/-- A serialized value: the data model serde's derived `Serialize` targets
(null, integer, string, array, and field-name-keyed object). -/
inductive SValue where
  | sNull
  | sInt (n : Int)
  | sStr (s : String)
  | sArr (elems : List SValue)
  | sObj (fields : List (String × SValue))

/-- Serialize an optional `i32` field. -/
def encOptI32 : Option Int → SValue
  | none => .sNull
  | some n => .sInt n

/-- Serialize an optional `u32` field. -/
def encOptU32 : Option Nat → SValue
  | none => .sNull
  | some n => .sInt (Int.ofNat n)

/-- Serialize an optional string field. -/
def encOptStr : Option String → SValue
  | none => .sNull
  | some s => .sStr s

/-- Serialize an optional date-time field. -/
def encOptDT : Option WMIDateTime → SValue
  | none => .sNull
  | some d => .sStr d.raw

/-- Deserialize an optional `i32` field. -/
def decOptI32 : SValue → Except Unit (Option Int)
  | .sNull => .ok none
  | .sInt n => .ok (some n)
  | _ => .error ()

/-- Deserialize an optional `u32` field. -/
def decOptU32 : SValue → Except Unit (Option Nat)
  | .sNull => .ok none
  | .sInt n => if 0 ≤ n then .ok (some n.toNat) else .error ()
  | _ => .error ()

/-- Deserialize an optional string field. -/
def decOptStr : SValue → Except Unit (Option String)
  | .sNull => .ok none
  | .sStr s => .ok (some s)
  | _ => .error ()

/-- Deserialize an optional date-time field. -/
def decOptDT : SValue → Except Unit (Option WMIDateTime)
  | .sNull => .ok none
  | .sStr s => .ok (some { raw := s })
  | _ => .error ()

/-- Look a field up in a serialized object, treating an absent field as
null (serde's behaviour for `Option` fields). -/
def sObjGet (fields : List (String × SValue)) (name : String) : SValue :=
  (List.lookup name fields).getD .sNull

/-- Serialize a `Win32_IP4RouteTable` as a field-name-keyed object. -/
def encIP4RouteTable (r : Win32_IP4RouteTable) : SValue :=
  .sObj [("Age", encOptI32 r.Age), ("Caption", encOptStr r.Caption),
         ("Description", encOptStr r.Description),
         ("Destination", encOptStr r.Destination),
         ("Information", encOptStr r.Information),
         ("InstallDate", encOptDT r.InstallDate),
         ("InterfaceIndex", encOptI32 r.InterfaceIndex),
         ("Mask", encOptStr r.Mask), ("Metric1", encOptI32 r.Metric1),
         ("Metric2", encOptI32 r.Metric2), ("Metric3", encOptI32 r.Metric3),
         ("Metric4", encOptI32 r.Metric4), ("Metric5", encOptI32 r.Metric5),
         ("Name", encOptStr r.Name), ("NextHop", encOptStr r.NextHop),
         ("Protocol", encOptU32 r.Protocol), ("Status", encOptStr r.Status),
         ("Type", encOptU32 r.«Type»)]

/-- Deserialize a `Win32_IP4RouteTable` from a serialized object, field by
name. -/
def decIP4RouteTableObj (fs : List (String × SValue)) :
    Except Unit Win32_IP4RouteTable := do
  let vAge ← decOptI32 (sObjGet fs "Age")
  let vCaption ← decOptStr (sObjGet fs "Caption")
  let vDescription ← decOptStr (sObjGet fs "Description")
  let vDestination ← decOptStr (sObjGet fs "Destination")
  let vInformation ← decOptStr (sObjGet fs "Information")
  let vInstallDate ← decOptDT (sObjGet fs "InstallDate")
  let vInterfaceIndex ← decOptI32 (sObjGet fs "InterfaceIndex")
  let vMask ← decOptStr (sObjGet fs "Mask")
  let vMetric1 ← decOptI32 (sObjGet fs "Metric1")
  let vMetric2 ← decOptI32 (sObjGet fs "Metric2")
  let vMetric3 ← decOptI32 (sObjGet fs "Metric3")
  let vMetric4 ← decOptI32 (sObjGet fs "Metric4")
  let vMetric5 ← decOptI32 (sObjGet fs "Metric5")
  let vName ← decOptStr (sObjGet fs "Name")
  let vNextHop ← decOptStr (sObjGet fs "NextHop")
  let vProtocol ← decOptU32 (sObjGet fs "Protocol")
  let vStatus ← decOptStr (sObjGet fs "Status")
  let vType ← decOptU32 (sObjGet fs "Type")
  pure { Age := vAge, Caption := vCaption, Description := vDescription,
         Destination := vDestination, Information := vInformation,
         InstallDate := vInstallDate, InterfaceIndex := vInterfaceIndex,
         Mask := vMask, Metric1 := vMetric1, Metric2 := vMetric2,
         Metric3 := vMetric3, Metric4 := vMetric4, Metric5 := vMetric5,
         Name := vName, NextHop := vNextHop, Protocol := vProtocol,
         Status := vStatus, «Type» := vType }

/-- Deserialize a `Win32_IP4RouteTable` from any serialized value. -/
def decIP4RouteTable : SValue → Except Unit Win32_IP4RouteTable
  | .sObj fs => decIP4RouteTableObj fs
  | _ => .error ()

/-- Serialize a `Win32_IP4PersistedRouteTable`. -/
def encIP4Persisted (r : Win32_IP4PersistedRouteTable) : SValue :=
  .sObj [("Caption", encOptStr r.Caption),
         ("Description", encOptStr r.Description),
         ("Destination", encOptStr r.Destination),
         ("InstallDate", encOptDT r.InstallDate),
         ("Mask", encOptStr r.Mask), ("Metric1", encOptI32 r.Metric1),
         ("Name", encOptStr r.Name), ("NextHop", encOptStr r.NextHop),
         ("Status", encOptStr r.Status)]

/-- Deserialize a `Win32_IP4PersistedRouteTable` from a serialized object. -/
def decIP4PersistedObj (fs : List (String × SValue)) :
    Except Unit Win32_IP4PersistedRouteTable := do
  let vCaption ← decOptStr (sObjGet fs "Caption")
  let vDescription ← decOptStr (sObjGet fs "Description")
  let vDestination ← decOptStr (sObjGet fs "Destination")
  let vInstallDate ← decOptDT (sObjGet fs "InstallDate")
  let vMask ← decOptStr (sObjGet fs "Mask")
  let vMetric1 ← decOptI32 (sObjGet fs "Metric1")
  let vName ← decOptStr (sObjGet fs "Name")
  let vNextHop ← decOptStr (sObjGet fs "NextHop")
  let vStatus ← decOptStr (sObjGet fs "Status")
  pure { Caption := vCaption, Description := vDescription,
         Destination := vDestination, InstallDate := vInstallDate,
         Mask := vMask, Metric1 := vMetric1, Name := vName,
         NextHop := vNextHop, Status := vStatus }

/-- Deserialize a `Win32_IP4PersistedRouteTable` from any serialized value. -/
def decIP4Persisted : SValue → Except Unit Win32_IP4PersistedRouteTable
  | .sObj fs => decIP4PersistedObj fs
  | _ => .error ()

/-- Deserialize each element of a serialized array. -/
def decListWith (dec : SValue → Except Unit α) :
    List SValue → Except Unit (List α)
  | [] => .ok []
  | v :: vs =>
    match dec v with
    | .error e => .error e
    | .ok x =>
      match decListWith dec vs with
      | .error e => .error e
      | .ok xs => .ok (x :: xs)

/-- Serialize the `IP4RouteTables` container. -/
def encIP4RouteTables (s : IP4RouteTables) : SValue :=
  .sObj [("ip4_route_tables", .sArr (s.ip4_route_tables.map encIP4RouteTable)),
         ("last_updated", .sInt (Int.ofNat s.last_updated))]

/-- Deserialize the `IP4RouteTables` container. -/
def decIP4RouteTables : SValue → Except Unit IP4RouteTables
  | .sObj fs =>
    match sObjGet fs "ip4_route_tables" with
    | .sArr vs =>
      match decListWith decIP4RouteTable vs with
      | .error e => .error e
      | .ok recs =>
        match sObjGet fs "last_updated" with
        | .sInt n =>
          if 0 ≤ n then
            .ok { ip4_route_tables := recs, last_updated := n.toNat }
          else .error ()
        | _ => .error ()
    | _ => .error ()
  | _ => .error ()

/-- Serialize the `IP4PersistedRouteTables` container. -/
def encIP4PersistedRouteTables (s : IP4PersistedRouteTables) : SValue :=
  .sObj [("ip4_persisted_route_tables",
          .sArr (s.ip4_persisted_route_tables.map encIP4Persisted)),
         ("last_updated", .sInt (Int.ofNat s.last_updated))]

/-- Deserialize the `IP4PersistedRouteTables` container. -/
def decIP4PersistedRouteTables : SValue → Except Unit IP4PersistedRouteTables
  | .sObj fs =>
    match sObjGet fs "ip4_persisted_route_tables" with
    | .sArr vs =>
      match decListWith decIP4Persisted vs with
      | .error e => .error e
      | .ok recs =>
        match sObjGet fs "last_updated" with
        | .sInt n =>
          if 0 ≤ n then
            .ok { ip4_persisted_route_tables := recs, last_updated := n.toNat }
          else .error ()
        | _ => .error ()
    | _ => .error ()
  | _ => .error ()

deriving instance DecidableEq for Except

/-- Fixture: a service that cannot resolve any class name. -/
def svcNone : Service := fun _ => none

/-- Fixture: a service that returns zero rows for every class name. -/
def svcEmptyRows : Service := fun _ => some []

/-- Fixture: a previously populated route-table container. -/
def fixtureRouteTables : IP4RouteTables :=
  { ip4_route_tables := [Win32_IP4RouteTable.mkDefault], last_updated := 3 }

/-- Fixture: a previously populated persisted-route container. -/
def fixturePersisted : IP4PersistedRouteTables :=
  { ip4_persisted_route_tables := [Win32_IP4PersistedRouteTable.mkDefault],
    last_updated := 3 }

/-- C1: for both snapshot containers and every starting state, a failed
refresh leaves the record sequence and the `last_updated` timestamp exactly
at their pre-call values — a failed refresh is a self-loop, never a partial
mutation. -/
theorem c1_failed_refresh_preserves_state (p : IP4RouteTables)
    (q : IP4PersistedRouteTables) (svc : Service) (now : SystemTime)
    (e e2 : QueryError) :
    ((IP4RouteTables.refresh p svc now).2 = .error e →
      (IP4RouteTables.refresh p svc now).1.ip4_route_tables =
          p.ip4_route_tables ∧
      (IP4RouteTables.refresh p svc now).1.last_updated = p.last_updated) ∧
    ((IP4PersistedRouteTables.refresh q svc now).2 = .error e2 →
      (IP4PersistedRouteTables.refresh q svc now).1.ip4_persisted_route_tables =
          q.ip4_persisted_route_tables ∧
      (IP4PersistedRouteTables.refresh q svc now).1.last_updated =
          q.last_updated) := by
  constructor
  · intro h
    simp only [IP4RouteTables.refresh, applyRefreshIP4RouteTables] at h ⊢
    cases hq : queryIP4RouteTable svc with
    | ok rs => rw [hq] at h; exact Except.noConfusion h
    | error err => exact ⟨rfl, rfl⟩
  · intro h
    simp only [IP4PersistedRouteTables.refresh, applyRefreshIP4Persisted] at h ⊢
    cases hq : queryIP4Persisted svc with
    | ok rs => rw [hq] at h; exact Except.noConfusion h
    | error err => exact ⟨rfl, rfl⟩

/-- Witness for C1: against a service that rejects every class, refreshing
the concrete populated containers changes neither sequence nor timestamp. -/
theorem c1_failed_refresh_preserves_state_witness :
    ((IP4RouteTables.refresh fixtureRouteTables svcNone 9).1.ip4_route_tables =
        fixtureRouteTables.ip4_route_tables ∧
      (IP4RouteTables.refresh fixtureRouteTables svcNone 9).1.last_updated =
        fixtureRouteTables.last_updated) ∧
    ((IP4PersistedRouteTables.refresh fixturePersisted svcNone
          9).1.ip4_persisted_route_tables =
        fixturePersisted.ip4_persisted_route_tables ∧
      (IP4PersistedRouteTables.refresh fixturePersisted svcNone
          9).1.last_updated = fixturePersisted.last_updated) := by
  have h := c1_failed_refresh_preserves_state fixtureRouteTables
    fixturePersisted svcNone 9 .serviceRejected .serviceRejected
  exact ⟨h.1 (by decide), h.2 (by decide)⟩

/-- C2: for both snapshot containers, a successful refresh replaces the
record sequence with the query's full result list and the `last_updated`
timestamp with the refresh's completion time, together. -/
theorem c2_successful_refresh_replaces_both (p : IP4RouteTables)
    (q : IP4PersistedRouteTables) (svc : Service) (now : SystemTime)
    (rs : List Win32_IP4RouteTable)
    (qs : List Win32_IP4PersistedRouteTable) :
    (queryIP4RouteTable svc = .ok rs →
      IP4RouteTables.refresh p svc now =
        ({ ip4_route_tables := rs, last_updated := now }, .ok ())) ∧
    (queryIP4Persisted svc = .ok qs →
      IP4PersistedRouteTables.refresh q svc now =
        ({ ip4_persisted_route_tables := qs, last_updated := now }, .ok ())) := by
  constructor
  · intro h
    simp [IP4RouteTables.refresh, applyRefreshIP4RouteTables, h]
  · intro h
    simp [IP4PersistedRouteTables.refresh, applyRefreshIP4Persisted, h]

/-- Witness for C2: against a service returning zero rows for every class,
refreshing the concrete containers replaces both components. -/
theorem c2_successful_refresh_replaces_both_witness :
    IP4RouteTables.refresh fixtureRouteTables svcEmptyRows 11 =
      ({ ip4_route_tables := [], last_updated := 11 }, .ok ()) ∧
    IP4PersistedRouteTables.refresh fixturePersisted svcEmptyRows 11 =
      ({ ip4_persisted_route_tables := [], last_updated := 11 }, .ok ()) := by
  have h := c2_successful_refresh_replaces_both fixtureRouteTables
    fixturePersisted svcEmptyRows 11 [] []
  exact ⟨h.1 (by decide), h.2 (by decide)⟩

/-- C7: a class name the management service cannot resolve yields
`QueryError::ServiceRejected` from the single query invocation (no retry
inside the executor), and applying the refresh with that outcome returns
the previous snapshot with records and timestamp untouched. -/
theorem c7_unknown_class_service_rejected (svc : Service)
    (p : IP4RouteTables) (now : SystemTime)
    (h : svc "Win32_NoSuchClass" = none) :
    wmiQuery svc "Win32_NoSuchClass" deserIP4RouteTable =
        .error .serviceRejected ∧
    applyRefreshIP4RouteTables p
        (wmiQuery svc "Win32_NoSuchClass" deserIP4RouteTable) now =
      (p, .error .serviceRejected) := by
  have hq : wmiQuery svc "Win32_NoSuchClass" deserIP4RouteTable =
      .error .serviceRejected := by
    simp [wmiQuery, h]
  exact ⟨hq, by simp [applyRefreshIP4RouteTables, hq]⟩

/-- Witness for C7: the all-rejecting service leaves the concrete populated
container untouched. -/
theorem c7_unknown_class_service_rejected_witness :
    wmiQuery svcNone "Win32_NoSuchClass" deserIP4RouteTable =
        .error .serviceRejected ∧
    applyRefreshIP4RouteTables fixtureRouteTables
        (wmiQuery svcNone "Win32_NoSuchClass" deserIP4RouteTable) 9 =
      (fixtureRouteTables, .error .serviceRejected) :=
  c7_unknown_class_service_rejected svcNone fixtureRouteTables 9 (by decide)

/-- C8: the connection provider's `open()` is idempotent — it succeeds with
a live session from every context, and a second call on the context it
leaves behind succeeds again without changing the initialization state. -/
theorem c8_open_idempotent (ctx : ComContext) :
    (comOpen ctx).2 = .ok { live := true } ∧
    comOpen (comOpen ctx).1 = ((comOpen ctx).1, .ok { live := true }) ∧
    ((comOpen ctx).1).comInitDone = true := by
  cases ctx with
  | mk b => cases b <;> simp [comOpen]

/-- C9: the `derive Default` records of both schemas have every declared
field equal to the absent value — the fully-absent record is the zero
element of each schema. -/
theorem c9_default_record_fully_absent :
    Win32_IP4RouteTable.mkDefault.Age = none ∧
    Win32_IP4RouteTable.mkDefault.Caption = none ∧
    Win32_IP4RouteTable.mkDefault.Description = none ∧
    Win32_IP4RouteTable.mkDefault.Destination = none ∧
    Win32_IP4RouteTable.mkDefault.Information = none ∧
    Win32_IP4RouteTable.mkDefault.InstallDate = none ∧
    Win32_IP4RouteTable.mkDefault.InterfaceIndex = none ∧
    Win32_IP4RouteTable.mkDefault.Mask = none ∧
    Win32_IP4RouteTable.mkDefault.Metric1 = none ∧
    Win32_IP4RouteTable.mkDefault.Metric2 = none ∧
    Win32_IP4RouteTable.mkDefault.Metric3 = none ∧
    Win32_IP4RouteTable.mkDefault.Metric4 = none ∧
    Win32_IP4RouteTable.mkDefault.Metric5 = none ∧
    Win32_IP4RouteTable.mkDefault.Name = none ∧
    Win32_IP4RouteTable.mkDefault.NextHop = none ∧
    Win32_IP4RouteTable.mkDefault.Protocol = none ∧
    Win32_IP4RouteTable.mkDefault.Status = none ∧
    Win32_IP4RouteTable.mkDefault.«Type» = none ∧
    Win32_IP4PersistedRouteTable.mkDefault.Caption = none ∧
    Win32_IP4PersistedRouteTable.mkDefault.Description = none ∧
    Win32_IP4PersistedRouteTable.mkDefault.Destination = none ∧
    Win32_IP4PersistedRouteTable.mkDefault.InstallDate = none ∧
    Win32_IP4PersistedRouteTable.mkDefault.Mask = none ∧
    Win32_IP4PersistedRouteTable.mkDefault.Metric1 = none ∧
    Win32_IP4PersistedRouteTable.mkDefault.Name = none ∧
    Win32_IP4PersistedRouteTable.mkDefault.NextHop = none ∧
    Win32_IP4PersistedRouteTable.mkDefault.Status = none := by
  decide

/-- Helper: a populated state reached by folding refresh attempts either
was the starting state or carries the record list and completion time of
one successful attempt in the trace — the pair is written atomically. -/
theorem foldl_contStep_populated (evs : List RefreshEvent) :
    ∀ (s : ContState) (rs : List Win32_IP4RouteTable) (t : SystemTime),
      evs.foldl contStep s = .populated rs t →
      s = .populated rs t ∨ ∃ ev ∈ evs, ev.1 = .ok rs ∧ ev.2 = t := by
  induction evs with
  | nil =>
    intro s rs t h
    exact .inl h
  | cons ev evs ih =>
    intro s rs t h
    simp only [List.foldl_cons] at h
    rcases ih _ _ _ h with h1 | ⟨ev2, hmem, h2⟩
    · cases hev : ev.1 with
      | ok xs =>
        simp only [contStep, hev] at h1
        cases h1
        exact .inr ⟨ev, List.mem_cons_self ev evs, hev, rfl⟩
      | error err =>
        simp only [contStep, hev] at h1
        exact .inl h1
    · exact .inr ⟨ev2, List.mem_cons_of_mem ev hmem, h2⟩

/-- C5: in every reachable container state, the timestamp is defined
exactly when the container is populated, and a populated state's record
sequence and timestamp always come from the same successful refresh — the
container never pairs a timestamp with a sequence captured at a different
time. -/
theorem c5_sequence_timestamp_consistent (evs : List RefreshEvent)
    (rs : List Win32_IP4RouteTable) (t : SystemTime) :
    ((runTrace evs).lastUpdated.isSome ↔ (runTrace evs).isPopulated = true) ∧
    (runTrace evs = .populated rs t →
      ∃ ev ∈ evs, ev.1 = .ok rs ∧ ev.2 = t) := by
  constructor
  · cases runTrace evs <;>
      simp [ContState.lastUpdated, ContState.isPopulated]
  · intro h
    rcases foldl_contStep_populated evs .empty rs t h with h1 | h2
    · exact ContState.noConfusion h1
    · exact h2

/-- Witness for C5: a trace of one failed then one successful refresh ends
populated, consistent, and carrying exactly the successful attempt's data
and time. -/
theorem c5_sequence_timestamp_consistent_witness :
    ((runTrace [(.error .serviceRejected, 2), (.ok [], 5)]).lastUpdated.isSome ↔
      (runTrace [(.error .serviceRejected, 2), (.ok [], 5)]).isPopulated = true) ∧
    ∃ ev ∈ [((.error .serviceRejected : Except QueryError
        (List Win32_IP4RouteTable)), (2 : SystemTime)), (.ok [], 5)],
      ev.1 = .ok [] ∧ ev.2 = 5 := by
  have h := c5_sequence_timestamp_consistent
    [(.error .serviceRejected, 2), (.ok [], 5)] [] 5
  exact ⟨h.1, h.2 (by decide)⟩

/-- Helper: if any row of the list fails to deserialize, the fail-fast
traversal reports an error (and, the row error type being a type mismatch,
that error). -/
theorem rowsMapM_mem_error {α : Type} (f : Row → Except DeserError α) :
    ∀ (rows : List Row) (r : Row), r ∈ rows →
      ∀ (e : DeserError), f r = .error e →
        rowsMapM f rows = .error .typeMismatch := by
  intro rows
  induction rows with
  | nil =>
    intro r hr
    exact absurd hr (List.not_mem_nil r)
  | cons a as ih =>
    intro r hr e he
    rcases List.mem_cons.mp hr with h1 | h1
    · subst h1
      cases e
      rw [rowsMapM, he]
    · cases hfa : f a with
      | error ea =>
        cases ea
        rw [rowsMapM, hfa]
      | ok x =>
        rw [rowsMapM, hfa, ih r h1 e he]

/-- C4: for any record type, if the service resolves the class but some
returned row has an attribute that cannot be coerced to its declared field
type, the whole query fails with `QueryError::TypeMismatch` and produces no
record list at all — the default policy aborts rather than skipping. -/
theorem c4_type_mismatch_aborts_query {α : Type} (svc : Service)
    (className : String) (deser : Row → Except DeserError α)
    (rows : List Row) (r : Row) (e : DeserError)
    (hsvc : svc className = some rows) (hr : r ∈ rows)
    (he : deser r = .error e) :
    wmiQuery svc className deser = .error .typeMismatch := by
  have hm := rowsMapM_mem_error deser rows r hr e he
  simp [wmiQuery, hsvc, hm]

/-- Fixture: one row whose `Age` attribute holds non-numeric text. -/
def rowBadAge : Row := [("Age", .vStr "abc")]

/-- Fixture: a service that answers the route-table class with the bad row. -/
def svcBadAge : Service := fun cn =>
  if cn = "Win32_IP4RouteTable" then some [rowBadAge] else none

/-- Witness for C4: the concrete bad row makes the whole route-table query
fail with a type mismatch. -/
theorem c4_type_mismatch_aborts_query_witness :
    wmiQuery svcBadAge "Win32_IP4RouteTable" deserIP4RouteTable =
      .error .typeMismatch :=
  c4_type_mismatch_aborts_query svcBadAge "Win32_IP4RouteTable"
    deserIP4RouteTable [rowBadAge] rowBadAge .typeMismatch (by decide)
    (by decide) (by decide)

/-- Helper: appending an attribute with a different name to a row does not
change a by-name lookup. -/
theorem lookup_append_single (row : Row) (a name : String) (v : WMIValue)
    (h : ¬(name = a)) :
    List.lookup name (row ++ [(a, v)]) = List.lookup name row := by
  induction row with
  | nil =>
    have hb : (name == a) = false := beq_eq_false_iff_ne.mpr h
    simp [List.lookup, hb]
  | cons p ps ih =>
    cases p with
    | mk k w =>
      by_cases hk : name = k
      · subst hk
        simp [List.lookup]
      · simp [List.lookup, hk, ih]

/-- Helper: reading a declared field is unaffected by an appended attribute
of a different name. -/
theorem readField_append {α : Type}
    (coe : WMIValue → Except DeserError (Option α)) (row : Row)
    (a name : String) (v : WMIValue) (h : ¬(name = a)) :
    readField coe (row ++ [(a, v)]) name = readField coe row name := by
  unfold readField
  rw [lookup_append_single row a name v h]

/-- Helper: an attribute not declared on `Win32_IP4RouteTable` is ignored
by its row deserializer. -/
theorem deserIP4RouteTable_ignores_undeclared (row : Row) (a : String)
    (v : WMIValue) (ha : a ∉ ip4RouteTableAttrNames) :
    deserIP4RouteTable (row ++ [(a, v)]) = deserIP4RouteTable row := by
  simp only [ip4RouteTableAttrNames, List.mem_cons, List.not_mem_nil,
    or_false, not_or] at ha
  obtain ⟨h1, h2, h3, h4, h5, h6, h7, h8, h9, h10, h11, h12, h13, h14,
    h15, h16, h17, h18⟩ := ha
  unfold deserIP4RouteTable readI32 readU32 readStr readDT
  rw [readField_append coerceI32 row a "Age" v (fun heq => h1 heq.symm),
    readField_append coerceStr row a "Caption" v (fun heq => h2 heq.symm),
    readField_append coerceStr row a "Description" v (fun heq => h3 heq.symm),
    readField_append coerceStr row a "Destination" v (fun heq => h4 heq.symm),
    readField_append coerceStr row a "Information" v (fun heq => h5 heq.symm),
    readField_append coerceDT row a "InstallDate" v (fun heq => h6 heq.symm),
    readField_append coerceI32 row a "InterfaceIndex" v (fun heq => h7 heq.symm),
    readField_append coerceStr row a "Mask" v (fun heq => h8 heq.symm),
    readField_append coerceI32 row a "Metric1" v (fun heq => h9 heq.symm),
    readField_append coerceI32 row a "Metric2" v (fun heq => h10 heq.symm),
    readField_append coerceI32 row a "Metric3" v (fun heq => h11 heq.symm),
    readField_append coerceI32 row a "Metric4" v (fun heq => h12 heq.symm),
    readField_append coerceI32 row a "Metric5" v (fun heq => h13 heq.symm),
    readField_append coerceStr row a "Name" v (fun heq => h14 heq.symm),
    readField_append coerceStr row a "NextHop" v (fun heq => h15 heq.symm),
    readField_append coerceU32 row a "Protocol" v (fun heq => h16 heq.symm),
    readField_append coerceStr row a "Status" v (fun heq => h17 heq.symm),
    readField_append coerceU32 row a "Type" v (fun heq => h18 heq.symm)]

/-- Helper: an attribute not declared on `Win32_IP4PersistedRouteTable` is
ignored by its row deserializer. -/
theorem deserIP4Persisted_ignores_undeclared (row : Row) (a : String)
    (v : WMIValue) (ha : a ∉ ip4PersistedAttrNames) :
    deserIP4Persisted (row ++ [(a, v)]) = deserIP4Persisted row := by
  simp only [ip4PersistedAttrNames, List.mem_cons, List.not_mem_nil,
    or_false, not_or] at ha
  obtain ⟨h1, h2, h3, h4, h5, h6, h7, h8, h9⟩ := ha
  unfold deserIP4Persisted readI32 readStr readDT
  rw [readField_append coerceStr row a "Caption" v (fun heq => h1 heq.symm),
    readField_append coerceStr row a "Description" v (fun heq => h2 heq.symm),
    readField_append coerceStr row a "Destination" v (fun heq => h3 heq.symm),
    readField_append coerceDT row a "InstallDate" v (fun heq => h4 heq.symm),
    readField_append coerceStr row a "Mask" v (fun heq => h5 heq.symm),
    readField_append coerceI32 row a "Metric1" v (fun heq => h6 heq.symm),
    readField_append coerceStr row a "Name" v (fun heq => h7 heq.symm),
    readField_append coerceStr row a "NextHop" v (fun heq => h8 heq.symm),
    readField_append coerceStr row a "Status" v (fun heq => h9 heq.symm)]

/-- C3: deserialization is field-by-name and tolerant — an attribute absent
from the record schema is ignored by both record deserializers, a declared
field that is absent or null in the row reads as the absent optional value
under every field coercion (never an error), and a row carrying only one
declared attribute deserializes successfully with every other field
absent. -/
theorem c3_deserialization_tolerant (row : Row) (a name : String)
    (v : WMIValue) (ha : a ∉ ip4RouteTableAttrNames)
    (hp : a ∉ ip4PersistedAttrNames) :
    deserIP4RouteTable (row ++ [(a, v)]) = deserIP4RouteTable row ∧
    deserIP4Persisted (row ++ [(a, v)]) = deserIP4Persisted row ∧
    (List.lookup name row = none →
      readI32 row name = .ok none ∧ readU32 row name = .ok none ∧
      readStr row name = .ok none ∧ readDT row name = .ok none) ∧
    (List.lookup name row = some .vNull →
      readI32 row name = .ok none ∧ readU32 row name = .ok none ∧
      readStr row name = .ok none ∧ readDT row name = .ok none) ∧
    deserIP4RouteTable [("Destination", .vStr "0.0.0.0")] =
      .ok { Win32_IP4RouteTable.mkDefault with
              Destination := some "0.0.0.0" } := by
  refine ⟨deserIP4RouteTable_ignores_undeclared row a v ha,
    deserIP4Persisted_ignores_undeclared row a v hp, ?_, ?_, by decide⟩
  · intro h
    exact ⟨by simp [readI32, readField, h], by simp [readU32, readField, h],
      by simp [readStr, readField, h], by simp [readDT, readField, h]⟩
  · intro h
    exact ⟨by simp [readI32, readField, h, coerceI32],
      by simp [readU32, readField, h, coerceU32],
      by simp [readStr, readField, h, coerceStr],
      by simp [readDT, readField, h, coerceDT]⟩

/-- Witness for C3: a concrete row with a null `NextHop`, an undeclared
appended attribute, and a probe of the absent `Metric1` attribute. -/
theorem c3_deserialization_tolerant_witness :
    deserIP4RouteTable ([("NextHop", .vNull)] ++ [("Bogus", .vStr "x")]) =
        deserIP4RouteTable [("NextHop", .vNull)] ∧
    deserIP4Persisted ([("NextHop", .vNull)] ++ [("Bogus", .vStr "x")]) =
        deserIP4Persisted [("NextHop", .vNull)] ∧
    (List.lookup "Metric1" [("NextHop", (.vNull : WMIValue))] = none →
      readI32 [("NextHop", .vNull)] "Metric1" = .ok none ∧
      readU32 [("NextHop", .vNull)] "Metric1" = .ok none ∧
      readStr [("NextHop", .vNull)] "Metric1" = .ok none ∧
      readDT [("NextHop", .vNull)] "Metric1" = .ok none) ∧
    (List.lookup "Metric1" [("NextHop", (.vNull : WMIValue))] = some .vNull →
      readI32 [("NextHop", .vNull)] "Metric1" = .ok none ∧
      readU32 [("NextHop", .vNull)] "Metric1" = .ok none ∧
      readStr [("NextHop", .vNull)] "Metric1" = .ok none ∧
      readDT [("NextHop", .vNull)] "Metric1" = .ok none) ∧
    deserIP4RouteTable [("Destination", .vStr "0.0.0.0")] =
      .ok { Win32_IP4RouteTable.mkDefault with
              Destination := some "0.0.0.0" } :=
  c3_deserialization_tolerant [("NextHop", .vNull)] "Bogus" "Metric1"
    (.vStr "x") (by decide) (by decide)

/-- Fixture: the scenario row with `Metric1 = "5"` (string) and
`NextHop = null`. -/
def scenarioRow1 : Row := [("Metric1", .vStr "5"), ("NextHop", .vNull)]

/-- Fixture: the second scenario row. -/
def scenarioRow2 : Row := [("Destination", .vStr "127.0.0.0")]

/-- Fixture: a service answering the route-table class with the two
scenario rows. -/
def scenarioSvc : Service := fun cn =>
  if cn = "Win32_IP4RouteTable" then some [scenarioRow1, scenarioRow2]
  else none

/-- The record the first scenario row deserializes to. -/
def scenarioRec1 : Win32_IP4RouteTable :=
  { Win32_IP4RouteTable.mkDefault with Metric1 := some 5 }

/-- The record the second scenario row deserializes to. -/
def scenarioRec2 : Win32_IP4RouteTable :=
  { Win32_IP4RouteTable.mkDefault with Destination := some "127.0.0.0" }

/-- C6: querying `Win32_IP4RouteTable` against the two-row scenario service
succeeds with two records, the first having `Metric1 = Some 5` (the string
coerced into the integer field) and `NextHop = None`, and refreshing any
container with it installs those records with `last_updated` equal to the
call's completion time. -/
theorem c6_scenario_query_and_refresh (p : IP4RouteTables)
    (now : SystemTime) :
    queryIP4RouteTable scenarioSvc = .ok [scenarioRec1, scenarioRec2] ∧
    scenarioRec1.Metric1 = some 5 ∧ scenarioRec1.NextHop = none ∧
    IP4RouteTables.refresh p scenarioSvc now =
      ({ ip4_route_tables := [scenarioRec1, scenarioRec2],
         last_updated := now }, .ok ()) := by
  have hq : queryIP4RouteTable scenarioSvc =
      .ok [scenarioRec1, scenarioRec2] := by decide
  exact ⟨hq, rfl, rfl,
    by simp [IP4RouteTables.refresh, applyRefreshIP4RouteTables, hq]⟩

/-- Helper: round-trip identity for an optional `i32` field. -/
theorem decEncOptI32 (o : Option Int) : decOptI32 (encOptI32 o) = .ok o := by
  cases o <;> rfl

/-- Helper: round-trip identity for an optional `u32` field. -/
theorem decEncOptU32 (o : Option Nat) : decOptU32 (encOptU32 o) = .ok o := by
  cases o with
  | none => rfl
  | some n => simp [encOptU32, decOptU32, Int.toNat_ofNat]

/-- Helper: round-trip identity for an optional string field. -/
theorem decEncOptStr (o : Option String) :
    decOptStr (encOptStr o) = .ok o := by
  cases o <;> rfl

/-- Helper: round-trip identity for an optional date-time field. -/
theorem decEncOptDT (o : Option WMIDateTime) :
    decOptDT (encOptDT o) = .ok o := by
  cases o <;> rfl

/-- Helper: binding a successful `Except` computation applies the
continuation directly. -/
theorem exceptBindOk {ε α β : Type} (a : α) (f : α → Except ε β) :
    (Except.ok a : Except ε α) >>= f = f a := rfl

/-- Helper: round-trip identity for the `Win32_IP4RouteTable` record. -/
theorem decEncIP4RouteTable (r : Win32_IP4RouteTable) :
    decIP4RouteTable (encIP4RouteTable r) = .ok r := by
  simp [encIP4RouteTable, decIP4RouteTable, decIP4RouteTableObj, sObjGet,
    List.lookup, decEncOptI32, decEncOptU32, decEncOptStr, decEncOptDT,
    exceptBindOk]

/-- Helper: round-trip identity for the `Win32_IP4PersistedRouteTable`
record. -/
theorem decEncIP4Persisted (r : Win32_IP4PersistedRouteTable) :
    decIP4Persisted (encIP4Persisted r) = .ok r := by
  simp [encIP4Persisted, decIP4Persisted, decIP4PersistedObj, sObjGet,
    List.lookup, decEncOptI32, decEncOptStr, decEncOptDT, exceptBindOk]

/-- Helper: round-trip identity for serialized record lists. -/
theorem decEncList {α : Type} (enc : α → SValue)
    (dec : SValue → Except Unit α) (hd : ∀ x, dec (enc x) = .ok x)
    (xs : List α) : decListWith dec (xs.map enc) = .ok xs := by
  induction xs with
  | nil => rfl
  | cons x xs ih => simp [decListWith, hd, ih]

/-- Helper: round-trip identity for the `IP4RouteTables` container. -/
theorem decEncIP4RouteTables (s : IP4RouteTables) :
    decIP4RouteTables (encIP4RouteTables s) = .ok s := by
  simp [encIP4RouteTables, decIP4RouteTables, sObjGet, List.lookup,
    decEncList encIP4RouteTable decIP4RouteTable decEncIP4RouteTable,
    Int.toNat_ofNat]

/-- Helper: round-trip identity for the `IP4PersistedRouteTables`
container. -/
theorem decEncIP4PersistedRouteTables (s : IP4PersistedRouteTables) :
    decIP4PersistedRouteTables (encIP4PersistedRouteTables s) = .ok s := by
  simp [encIP4PersistedRouteTables, decIP4PersistedRouteTables, sObjGet,
    List.lookup,
    decEncList encIP4Persisted decIP4Persisted decEncIP4Persisted,
    Int.toNat_ofNat]

/-- C10: serializing then deserializing any value of the two record types
and the two snapshot container types yields the original value field for
field — serde round-trip identity. -/
theorem c10_serde_round_trip (r : Win32_IP4RouteTable)
    (p : Win32_IP4PersistedRouteTable) (s : IP4RouteTables)
    (q : IP4PersistedRouteTables) :
    decIP4RouteTable (encIP4RouteTable r) = .ok r ∧
    decIP4Persisted (encIP4Persisted p) = .ok p ∧
    decIP4RouteTables (encIP4RouteTables s) = .ok s ∧
    decIP4PersistedRouteTables (encIP4PersistedRouteTables q) = .ok q :=
  ⟨decEncIP4RouteTable r, decEncIP4Persisted p, decEncIP4RouteTables s,
    decEncIP4PersistedRouteTables q⟩
